import Mathlib

/-!
Shallow embedding of the time-clock punch service (src/services.py) and
verification of its specification.

The database-backed state is modelled as explicit record structures holding
lists of rows; every service operation becomes a pure function from the
durable state (plus its arguments and the values the source reads from the
environment, such as the current instant) to a result paired with the new
durable state.  Store-level failures, which in the source arrive as
psycopg2 exceptions raised by individual statements, are modelled by
boolean failure-injection flags; an exception that the source does not
catch surfaces as an `Outcome.raised` value, while caught ones follow the
source's handler.

The configuration module (config.py: FUSO_HORARIO, HORARIOS_PADRAO,
TOLERANCIA_MINUTOS) is not part of the provided sources; where a claim
depends on it, the configuration is modelled from the spec (see
HORARIOS_PADRAO and TOLERANCIA_MINUTOS below) and the flows otherwise take
the schedule map and the tolerance as explicit parameters.
-/

namespace Services

/-- A time of day with minute precision, as produced by Python `time(h, m)`
in the schedule tables of services.py. -/
structure Hm where
  hour : Nat
  minute : Nat
deriving DecidableEq, Repr

/-- An `HH:MM:SS` time of day, as parsed by
`datetime.strptime(novo_horario, "%H:%M:%S").time()`. -/
structure Hms where
  hour : Nat
  minute : Nat
  second : Nat
deriving DecidableEq, Repr

/-- A row of the `registros` table (services.py:86-98). -/
structure Registro where
  id : String
  cpf_funcionario : String
  nome : String
  data : String
  hora : String
  descricao : String
  diferenca_min : Int
  observacao : Option String
deriving DecidableEq, Repr

/-- A row of the `funcionarios` table (services.py:72-85). -/
structure Funcionario where
  cpf : String
  codigo : String
  nome : String
  senha : String
  role : String
  empresa_id : Option Int
  cod_tipo : Option String
  tipo : Option String
  filial : Option String
deriving DecidableEq, Repr

/-- A row of the `empresas` table (services.py:71). -/
structure Empresa where
  id : Int
  nome_empresa : String
  cnpj : Option String
deriving DecidableEq, Repr

/-- The durable database state. -/
structure DB where
  empresas : List Empresa
  funcionarios : List Funcionario
  registros : List Registro
deriving DecidableEq, Repr

/-- Result of a service call: either a returned `(message, severity)` pair,
or an exception that escaped the operation uncaught. -/
inductive Outcome where
  | ok (msg : String) (sev : String)
  | raised (e : String)
deriving DecidableEq, Repr

/-- Severity of a returned result (`none` when the call raised). -/
def Outcome.sev : Outcome → Option String
  | .ok _ s => some s
  | .raised _ => none

/-- Message of a returned result (`none` when the call raised). -/
def Outcome.msg : Outcome → Option String
  | .ok m _ => some m
  | .raised _ => none

/-- Whether the call escaped with an uncaught exception. -/
def Outcome.isRaised : Outcome → Bool
  | .ok _ _ => false
  | .raised _ => true

/- ### Character/string helpers (kernel-computable replacements for the
Python string operations used by the source). -/

/-- Digit-run accumulator: numeric value of a list of decimal digits. -/
def digitsToNat (l : List Char) : Nat :=
  l.foldl (fun acc c => acc * 10 + (c.toNat - 48)) 0

/-- All characters are decimal digits (and the list is nonempty). -/
def allDigits (l : List Char) : Bool :=
  decide (l ≠ []) && l.all Char.isDigit

/-- First maximal run of decimal digits in a character list;
models `re.search(r"\d+", s)` (services.py:283). -/
def firstDigitRun : List Char → Option (List Char)
  | [] => none
  | c :: cs => if c.isDigit then some (c :: cs.takeWhile Char.isDigit) else firstDigitRun cs

/-- Value of the first integer occurring in a string, if any. -/
def firstIntOfString (s : String) : Option Int :=
  (firstDigitRun s.data).map (fun l => (digitsToNat l : Int))

/-- Split a character list on a separator character (all occurrences);
models Python `str.split(sep)` for a one-character separator. -/
def splitChar (sep : Char) : List Char → List (List Char)
  | [] => [[]]
  | c :: cs =>
    let r := splitChar sep cs
    if c = sep then [] :: r
    else
      match r with
      | [] => [[c]]
      | h :: t => (c :: h) :: t

/-- Python truthiness of a string. -/
def truthy (s : String) : Bool := s ≠ ""

/-- Lowercase a string (models Python `str.lower` for the ASCII range used
by the site labels). -/
def lowerStr (s : String) : String := ⟨s.data.map Char.toLower⟩

/-- Strip leading and trailing whitespace (models Python `str.strip`). -/
def trimStr (s : String) : String :=
  ⟨((s.data.dropWhile Char.isWhitespace).reverse.dropWhile Char.isWhitespace).reverse⟩

/-- `needle` occurs as a contiguous run inside `hay`. -/
def listHasRun (needle hay : List Char) : Bool :=
  hay.tails.any (fun t => needle.isPrefixOf t)

/-- Substring containment on strings (models Python `in` on str). -/
def strHasSub (hay needle : String) : Bool := listHasRun needle.data hay.data

/-- Models `datetime.strptime(s, "%H:%M:%S")`: three colon-separated fields
of one or two digits, hour below 24, minute below 60, second below 62
(Python's `%S` accepts leap seconds 60 and 61). -/
def parse_hms (s : String) : Option Hms :=
  match splitChar ':' s.data with
  | [h, m, sec] =>
    if allDigits h && decide (h.length ≤ 2) && allDigits m && decide (m.length ≤ 2)
        && allDigits sec && decide (sec.length ≤ 2)
        && decide (digitsToNat h ≤ 23) && decide (digitsToNat m ≤ 59)
        && decide (digitsToNat sec ≤ 61) then
      some ⟨digitsToNat h, digitsToNat m, digitsToNat sec⟩
    else none
  | _ => none

/-- Models success of `datetime.strptime(s, "%Y-%m-%d")`: three dash-separated
digit fields with plausible ranges.  (The per-month day bound of the Python
calendar is not reproduced; every date the service itself writes is well
inside the common range.) -/
def dateOk (s : String) : Bool :=
  match splitChar '-' s.data with
  | [y, mo, d] =>
    allDigits y && decide (y.length = 4) && allDigits mo && decide (mo.length ≤ 2)
      && allDigits d && decide (d.length ≤ 2)
      && decide (1 ≤ digitsToNat mo) && decide (digitsToNat mo ≤ 12)
      && decide (1 ≤ digitsToNat d) && decide (digitsToNat d ≤ 31)
  | _ => false

/-- Two-digit zero padding, as in `strftime`. -/
def pad2 (n : Nat) : String := if n < 10 then "0" ++ toString n else toString n

/- ### Configuration (config.py is not among the provided sources). -/

/-- Modelled from the spec: the default event→time mapping supplied by the
missing config.py (`HORARIOS_PADRAO`), an ordered mapping that "defines the
daily event sequence and count", with the spec's default of Entry 08:00 and
Exit 18:00 for the two daily events. -/
def HORARIOS_PADRAO : List (String × Hm) := [("Entrada", ⟨8, 0⟩), ("Saída", ⟨18, 0⟩)]

/-- Modelled from the spec: the tolerance in minutes supplied by the missing
config.py (`TOLERANCIA_MINUTOS`), a non-negative integer; the spec's worked
scenarios use 10.  The flow embeddings take the tolerance as an explicit
parameter, and this value instantiates them in concrete evaluations. -/
def TOLERANCIA_MINUTOS : Int := 10

/-- Dictionary lookup `horarios[evento]` on the ordered mapping. -/
def lookupHorario (horarios : List (String × Hm)) (evento : String) : Option Hm :=
  (horarios.find? (fun p => p.fst = evento)).map Prod.snd

/- ### Schedule resolution. -/

/-- services.py:59-62: `get_horario_padrao(filial, proximo_evento)`.  The
`filial` argument is `None` or an integer at the call sites (the `in (3, 4)`
membership test is false for `None`). -/
def get_horario_padrao (filial : Option Int) (proximo_evento : String) : Hm :=
  if filial = some 3 ∨ filial = some 4 then
    if proximo_evento = "Entrada" then ⟨7, 30⟩ else ⟨17, 30⟩
  else
    if proximo_evento = "Entrada" then ⟨8, 0⟩ else ⟨18, 0⟩

/-- services.py:281-284: the correction flow's extraction of a numeric site
from the stored free-text label (`None`/empty is falsy; otherwise the first
regex-matched integer, or `None` when there is none). -/
def extrair_filial_num (filial_tx : Option String) : Option Int :=
  match filial_tx with
  | none => none
  | some s => if s = "" then none else firstIntOfString s

/-- The expected time the correction flow resolves for a stored site label
and event (services.py:281-286). -/
def atualizar_hora_prevista (filial_tx : Option String) (evento : String) : Hm :=
  get_horario_padrao (extrair_filial_num filial_tx) evento

/-- services.py:170-176: the recording flow's site override table. -/
def horarios_filiais_34 : List (String × Hm) := [("Entrada", ⟨7, 30⟩), ("Saída", ⟨17, 30⟩)]

/-- The expected time the recording flow resolves for a stored site label and
event (services.py:170-178): exact-string membership in the four override
labels selects the alternate table, then a dictionary lookup (whose failure
would be a KeyError, hence the Option). -/
def bater_hora_prevista (horarios : List (String × Hm)) (filial : Option String)
    (evento : String) : Option Hm :=
  let horarios2 :=
    if filial = some "Filial 03" ∨ filial = some "Filial 3" ∨
        filial = some "Filial 04" ∨ filial = some "Filial 4" then
      horarios_filiais_34
    else horarios
  lookupHorario horarios2 evento

/- ### Deviation engine. -/

/-- services.py:187-192: the recording flow's tolerance-band clamp of the raw
minute deviation. -/
def bater_diff_final (tol diff_bruta : Int) : Int :=
  if |diff_bruta| ≤ tol then 0
  else if diff_bruta > 0 then diff_bruta - tol
  else diff_bruta + tol

/-- services.py:298-303: the correction flow's tolerance-band clamp of the
raw minute deviation. -/
def atualizar_diff_final (tol diff_bruta : Int) : Int :=
  if |diff_bruta| ≤ tol then 0
  else if diff_bruta > 0 then diff_bruta - tol
  else diff_bruta + tol

/-- Python `round(x / 60)` for an exact integer number of seconds `x`:
round half to even.  (With `microsecond=0` operands, `total_seconds()` is an
integer-valued float and the quotient's ties at half are exactly
representable, so this matches the float computation of services.py:186.) -/
def pythonRoundDiv60 (x : Int) : Int :=
  let q := Int.fdiv x 60
  let r := x - 60 * q
  if r < 30 then q
  else if r > 30 then q + 1
  else if q % 2 = 0 then q else q + 1

/-- Seconds elapsed since midnight. -/
def secondsOfDay (h m s : Nat) : Int := ((3600 * h + 60 * m + s : Nat) : Int)

/- ### Punch recording flow. -/

/-- The current instant as the recording flow consumes it:
`datetime.now(FUSO_HORARIO)` observed through `strftime("%Y-%m-%d")` (the
`data` field) and its time-of-day fields (with `microsecond = 0`
granularity; the sub-second part never changes any rounded minute here). -/
structure Agora where
  data : String
  hour : Nat
  minute : Nat
  second : Nat
deriving DecidableEq, Repr

/-- `agora.strftime("%H:%M:%S")`. -/
def horaStr (a : Agora) : String :=
  pad2 a.hour ++ ":" ++ pad2 a.minute ++ ":" ++ pad2 a.second

/-- `agora.isoformat()` restricted to the fields the model carries. -/
def isoStr (a : Agora) : String := a.data ++ "T" ++ horaStr a

/-- The `COUNT(*)` of services.py:138-141: punches of this employee on this
calendar date. -/
def countHoje (db : DB) (cpf hoje : String) : Nat :=
  (db.registros.filter (fun r => r.cpf_funcionario = cpf && r.data = hoje)).length

/-- services.py:134-152: `obter_proximo_evento`.  The event list is the key
order of the configured mapping; an exhausted day yields the sentinel.
(`getD` with the sentinel as default is the guarded index of line 152.) -/
def obter_proximo_evento (horarios : List (String × Hm)) (db : DB) (hoje cpf : String) :
    String :=
  let eventos := horarios.map Prod.fst
  eventos.getD (countHoje db cpf hoje) "Jornada Finalizada"

/-- services.py:222-226: the confirmation-status suffix of the recording
message.  (Dead code in the source: see `bater_ponto` — every call raises
before this logic runs.) -/
def bater_status_final (diff_final diff_bruta : Int) : String :=
  if diff_final ≠ 0 then ""
  else if diff_bruta ≠ 0 then
    " (dentro da tolerância, registrado como \x27em ponto\x27)"
  else " (em ponto)"

/-- services.py:214-220: the lateness/earliness suffix of the recording
message.  (Dead code in the source, like `bater_status_final`.) -/
def bater_msg_extra (diff_final : Int) : String :=
  if diff_final > 0 then " (" ++ toString diff_final ++ " min de atraso)"
  else if diff_final < 0 then " (" ++ toString (-diff_final) ++ " min de adiantamento)"
  else ""

/-- services.py:155-232: `bater_ponto` under the connection-wide
RealDictCursor (get_db_connection, services.py:53), which yields dict rows
that do not support integer indexing.  After the day-complete check, line
168 reads `filial = resultado[0] if resultado else None`: when the employee
exists, `resultado` is a non-empty dict row (truthy even with a NULL site)
and the positional access raises an uncaught KeyError; when the employee
does not exist, `filial` is None, the schedule lookup runs
(`horarios[proximo_evento]`, a KeyError for an unconfigured event), and the
INSERT of line 207 then violates the `cpf_funcionario` foreign key of line
96 — or raises the injected store failure — so it raises as well.  None of
this is wrapped in a try/except, so no call past the day-complete check
returns, and the message logic of lines 214-231 (`bater_msg_extra`,
`bater_status_final`) is dead code. -/
def bater_ponto (horarios : List (String × Hm)) (tol : Int) (insertFails : Bool)
    (db : DB) (agora : Agora) (cpf nome : String) : Outcome × DB :=
  let proximo_evento := obter_proximo_evento horarios db agora.data cpf
  if proximo_evento = "Jornada Finalizada" then
    (.ok "Sua jornada de hoje já foi completamente registada." "warning", db)
  else
    match db.funcionarios.find? (fun f => f.cpf = cpf) with
    | some _ => (.raised "KeyError: 0", db)
    | none =>
      match bater_hora_prevista horarios none proximo_evento with
      | none => (.raised "KeyError", db)
      | some _ =>
        if insertFails then (.raised "psycopg2.Error: insert failed", db)
        else (.raised "psycopg2.IntegrityError: cpf_funcionario foreign key", db)

/- ### Punch correction flow. -/

/-- Failure injection for the write statements of the correction flow:
whether the annotation UPDATE, the time UPDATE, or the final commit raises a
psycopg2 error. -/
structure DbFail where
  obsUpdate : Bool
  horaUpdate : Bool
  commit : Bool
deriving DecidableEq, Repr

/-- No injected store failure. -/
def noFail : DbFail := ⟨false, false, false⟩

/-- The message the broad psycopg2 handlers produce. -/
def dbErrMsg : String := "Erro no banco de dados: psycopg2.Error"

/-- services.py:255-258: annotation UPDATE on the working state. -/
def upd_obs (db : DB) (idr obs : String) : DB :=
  let regs := db.registros.map
    (fun r => if r.id = idr then { r with observacao := some obs } else r)
  { db with registros := regs }

/-- services.py:305-308: time/deviation UPDATE on the working state. -/
def upd_hora (db : DB) (idr hora : String) (diff : Int) : DB :=
  let regs := db.registros.map
    (fun r => if r.id = idr then { r with hora := hora, diferenca_min := diff } else r)
  { db with registros := regs }

/-- `cursor.rowcount` of an UPDATE targeting one id. -/
def rowcount_id (db : DB) (idr : String) : Nat :=
  (db.registros.filter (fun r => r.id = idr)).length

/-- services.py:268-274: the re-SELECT joining the punch with its employee;
`None` when the join finds no row.  Yields the punch row (for `descricao`
and `data`) and the employee's `filial`. -/
def selectJoin (db : DB) (idr : String) : Option (Registro × Option String) :=
  (db.registros.find? (fun r => r.id = idr)).bind (fun r =>
    (db.funcionarios.find? (fun f => f.cpf = r.cpf_funcionario)).map
      (fun f => (r, f.filial)))

/-- services.py:311-318: the tail of the correction flow — the zero-change
warning check, then the commit.  `db0` is the durable state on entry (kept
on every non-commit path), `dbW` the working state. -/
def atualizar_finalize (fail : DbFail) (db0 dbW : DB) (campos : Nat) : Outcome × DB :=
  if campos = 0 then (.ok "Nenhuma alteração foi realizada." "warning", db0)
  else if fail.commit then (.ok dbErrMsg "error", db0)
  else (.ok "Registro atualizado com sucesso." "success", dbW)

/-- services.py:254-259: the (optional) annotation UPDATE on the working
state, with the psycopg2 error it may raise modelled as `none`; yields the
working state and the accumulated `campos_atualizados`. -/
def atualizar_obs_step (fail : DbFail) (db : DB) (idr : String) :
    Option String → Option (DB × Nat)
  | none => some (db, 0)
  | some obs =>
    if fail.obsUpdate then none
    else some (upd_obs db idr obs, rowcount_id db idr)

/-- services.py:286-296: the raw minute deviation the correction flow
computes — the punch's stored date combined with the expected time and with
the new time, seconds zeroed on both (line 290 and line 293), so the
difference is an exact number of minutes independent of the date and of the
seconds field of the parsed time. -/
def atualizar_diff_bruta (filial_tx : Option String) (descricao : String)
    (novo_obj : Hms) : Int :=
  let hora_prevista := atualizar_hora_prevista filial_tx descricao
  ((60 * novo_obj.hour + novo_obj.minute : Nat) : Int) -
    ((60 * hora_prevista.hour + hora_prevista.minute : Nat) : Int)

/-- services.py:240-322: `atualizar_registro`.  The whole body runs in one
transaction on one connection; any return before the commit of line 315
leaves the durable state `db` untouched (psycopg2 rolls back the uncommitted
work when the connection closes).  The uncaught `ValueError` that
`strptime(data_str, "%Y-%m-%d")` would raise on a malformed stored date
surfaces as `Outcome.raised`. -/
def atualizar_registro (tol : Int) (fail : DbFail) (db : DB) (id_registro : String)
    (novo_horario : Option String) (nova_observacao : Option String) : Outcome × DB :=
  if (db.registros.find? (fun r => r.id = id_registro)).isNone then
    (.ok "Registro não encontrado." "error", db)
  else
    match atualizar_obs_step fail db id_registro nova_observacao with
    | none => (.ok dbErrMsg "error", db)
    | some (db1, n1) =>
      match novo_horario with
      | none => atualizar_finalize fail db db1 n1
      | some hstr =>
        match parse_hms hstr with
        | none => (.ok "Formato de hora inválido. Use HH:MM:SS." "error", db)
        | some novo_obj =>
          match selectJoin db1 id_registro with
          | none => atualizar_finalize fail db db1 n1
          | some (reg, filial_tx) =>
            if dateOk reg.data then
              if fail.horaUpdate then (.ok dbErrMsg "error", db)
              else
                atualizar_finalize fail db
                  (upd_hora db1 id_registro hstr
                    (atualizar_diff_final tol
                      (atualizar_diff_bruta filial_tx reg.descricao novo_obj)))
                  (n1 + rowcount_id db1 id_registro)
            else (.raised "ValueError: strptime", db)

/- ### Employee creation. -/

/-- Modelled from the spec: the one-way deterministic credential-hashing
collaborator (`_hash_senha`, a SHA-256 digest); the digest function itself is
external to the core's business rules, so it is modelled as an injective
tagging function. -/
def hash_senha (senha : String) : String := "sha256:" ++ senha

/-- Fresh SERIAL id for an `empresas` insert. -/
def nextEmpresaId (db : DB) : Int :=
  (db.empresas.foldl (fun m e => max m e.id) 0) + 1

/-- services.py:106-114: `_obter_ou_criar_empresa_id` with the
RealDictCursor rows its callers pass: both branches raise an uncaught
KeyError — the hit branch evaluates `resultado[0]` while building the
UPDATE's argument tuple, so before the UPDATE executes, and the miss branch
executes the INSERT … RETURNING and then raises on `fetchone()[0]`.  No id
is ever returned.  This function yields the working state left behind when
the KeyError is raised (company row inserted on a miss, nothing changed on
a hit); whether that state ever commits is up to the caller's transaction. -/
def obter_ou_criar_empresa_id_raises (db : DB) (nome_empresa cnpj : String) : DB :=
  match db.empresas.find? (fun e => lowerStr e.nome_empresa = lowerStr nome_empresa) with
  | some _ => db
  | none =>
    { db with empresas := db.empresas ++ [⟨nextEmpresaId db, nome_empresa, some cnpj⟩] }

/-- services.py:326-344: `adicionar_funcionario`.  The validation and
duplicate checks return early; past them, `_obter_ou_criar_empresa_id`
always raises KeyError (see `obter_ou_criar_empresa_id_raises`), which the
`except psycopg2.Error` handler does not catch, so every fresh-cpf call
raises and nothing commits (the connection closes without commit, rolling
back the working writes). -/
def adicionar_funcionario (db : DB)
    (codigo nome nome_empresa cnpj cpf cod_tipo tipo filial : String) : Outcome × DB :=
  if ¬ (truthy codigo && truthy nome && truthy nome_empresa && truthy cpf) then
    (.ok "Campos essenciais (Código Forte, Nome, Empresa, CPF) são obrigatórios." "error",
      db)
  else if (db.funcionarios.find? (fun f => f.cpf = cpf)).isSome then
    (.ok ("O CPF \x27" ++ cpf ++ "\x27 já está em uso.") "warning", db)
  else (.raised "KeyError: 0", db)

/- ### Bulk import. -/

/-- One spreadsheet row of the bulk import, already `str(...)`-converted
(the required columns exist by construction of this type; the source's
column check of services.py:358-360 is outside the per-row logic the claims
concern). -/
structure Linha where
  arquivo : String
  empresa : String
  cnpj : String
  codtipo : String
  tipo : String
  codforte : String
  nome : String
  cpf : String
deriving DecidableEq, Repr

/-- services.py:346-352: `_extrair_filial_do_texto`. -/
def extrair_filial_do_texto (texto_arquivo : String) : String :=
  let texto_lower := lowerStr texto_arquivo
  if strHasSub texto_lower "matriz" then "Matriz"
  else if strHasSub texto_lower "filial 02" || strHasSub texto_lower "filial 2" then "Filial 02"
  else if strHasSub texto_lower "filial 03" || strHasSub texto_lower "filial 3" then "Filial 03"
  else if strHasSub texto_lower "filial 04" || strHasSub texto_lower "filial 4" then "Filial 04"
  else "Não Identificada"

/-- In-memory state of the bulk-import loop (services.py:355-394):
queued inserts, error lines, ignored tally, the growing known-cpf list, the
cached company map, and the working database (companies may be inserted
inside the loop). -/
structure ImportState where
  novos : List Funcionario
  erros : List String
  ignorados : Nat
  cpfs : List String
  empresasMap : List (String × Int)
  db : DB
deriving DecidableEq, Repr

/-- services.py:367-394: the body of the bulk-import loop for the row at
position `idx`.  The duplicate and required-field checks run first.  Past
them, the cached company map is consulted: on a hit with a truthy id the
row is queued and its cpf recorded; otherwise (`if not empresa_id`)
`_obter_ou_criar_empresa_id` is called and raises KeyError (RealDictCursor
positional access, services.py:110-114) — the per-row `except Exception`
turns that into the error line `Linha N: Erro - 0` (`str(KeyError(0))` is
`"0"`), so the row is never queued, its cpf is never recorded, and the map
is never updated; on a company miss the raising call still leaves the
INSERTed company row on the working transaction, which the final commit of
line 402 makes durable. -/
def importar_row (st : ImportState) (idx : Nat) (row : Linha) : ImportState :=
  let filial := extrair_filial_do_texto row.arquivo
  let nome_empresa := trimStr row.empresa
  let cnpj := trimStr row.cnpj
  let cod_tipo := trimStr row.codtipo
  let tipo := trimStr row.tipo
  let codigo := trimStr row.codforte
  let nome := trimStr row.nome
  let cpf_raw := trimStr row.cpf
  if st.cpfs.contains cpf_raw then { st with ignorados := st.ignorados + 1 }
  else if ¬ (truthy codigo && truthy nome && truthy cpf_raw && truthy nome_empresa) then
    { st with erros := st.erros ++
        ["Linha " ++ toString (idx + 2) ++
          ": Dados essenciais (CodForte, Nome, CPF, Empresa) incompletos."] }
  else
    match st.empresasMap.find? (fun p => p.fst = lowerStr nome_empresa) with
    | some p =>
      if p.snd = 0 then
        { st with
          db := obter_ou_criar_empresa_id_raises st.db nome_empresa cnpj,
          erros := st.erros ++ ["Linha " ++ toString (idx + 2) ++ ": Erro - 0"] }
      else
        { st with
          novos := st.novos ++
            [⟨cpf_raw, codigo, nome, hash_senha codigo, "employee", some p.snd,
              some cod_tipo, some tipo, some filial⟩],
          cpfs := st.cpfs ++ [cpf_raw] }
    | none =>
      { st with
        db := obter_ou_criar_empresa_id_raises st.db nome_empresa cnpj,
        erros := st.erros ++ ["Linha " ++ toString (idx + 2) ++ ": Erro - 0"] }

/-- The sequential loop over the rows, indices counting from 0 (the default
range index of `iterrows`). -/
def importar_loop (st : ImportState) (idx : Nat) : List Linha → ImportState
  | [] => st
  | r :: rs => importar_loop (importar_row st idx r) (idx + 1) rs

/-- Loop entry state: persisted cpfs (services.py:356) and the persisted
company map (services.py:364-365). -/
def importar_init (db : DB) : ImportState :=
  ⟨[], [], 0, db.funcionarios.map Funcionario.cpf,
    db.empresas.map (fun e => (lowerStr e.nome_empresa, e.id)), db⟩

/-- State after processing every row. -/
def importar_proc (db : DB) (rows : List Linha) : ImportState :=
  importar_loop (importar_init db) 0 rows

/-- services.py:354-404: `importar_funcionarios_em_massa`, returning
`(success_count, ignored_count, errors)` and the committed state.
`batchFails` injects a psycopg2 error at the final `executemany`; the source
catches it, appends a general error line, and still commits the loop's
company insertions (the commit of line 402 is outside that try). -/
def importar_funcionarios_em_massa (batchFails : Bool) (db : DB) (rows : List Linha) :
    (Nat × Nat × List String) × DB :=
  let st := importar_proc db rows
  if st.novos.isEmpty then ((0, st.ignorados, st.erros), st.db)
  else if batchFails then
    ((0, st.ignorados, st.erros ++ ["Erro geral no banco de dados: psycopg2.Error"]), st.db)
  else
    ((st.novos.length, st.ignorados, st.erros),
      { st.db with funcionarios := st.db.funcionarios ++ st.novos })

/- ### Concrete states for evaluating the flows at specific inputs. -/

/-- A concrete employee with no site on file. -/
def funcAna : Funcionario :=
  ⟨"111", "c1", "Ana", "sha256:c1", "employee", none, none, none, none⟩

/-- A concrete one-employee, no-punch state. -/
def dbAna : DB := ⟨[], [funcAna], []⟩

/-- A concrete instant: 08:05:00 on 2025-01-06. -/
def agora0805 : Agora := ⟨"2025-01-06", 8, 5, 0⟩

/- ### Shared lemmas on the deviation engine. -/

/-- The tolerance clamp is zero exactly on the closed tolerance band. -/
theorem bater_diff_final_eq_zero_iff (tol r : Int) (htol : 0 ≤ tol) :
    bater_diff_final tol r = 0 ↔ |r| ≤ tol := by
  unfold bater_diff_final
  rcases abs_cases r with ⟨ha, h0⟩ | ⟨ha, h0⟩ <;> rw [ha] <;> split_ifs <;> omega

/-- C1: for every non-negative integer tolerance and every raw minute
deviation r, the recording flow's and the correction flow's deviation
computations agree; the result is 0 iff |r| ≤ T, and otherwise it is r − T
when r > 0 and r + T when r < 0, hence has the sign of r and magnitude
|r| − T. -/
theorem C1_deviation_tolerance_band (tol r : Int) (htol : 0 ≤ tol) :
    bater_diff_final tol r = atualizar_diff_final tol r ∧
    (bater_diff_final tol r = 0 ↔ |r| ≤ tol) ∧
    (tol < |r| →
      (0 < r → bater_diff_final tol r = r - tol) ∧
      (r < 0 → bater_diff_final tol r = r + tol) ∧
      (0 < bater_diff_final tol r ↔ 0 < r) ∧
      (bater_diff_final tol r < 0 ↔ r < 0) ∧
      |bater_diff_final tol r| = |r| - tol) := by
  refine ⟨rfl, bater_diff_final_eq_zero_iff tol r htol, ?_⟩
  intro hgt
  unfold bater_diff_final
  simp only [Int.abs_eq_natAbs] at hgt ⊢
  split_ifs <;> omega

/-- Witness for C1 at tolerance 10 and raw deviation 25. -/
theorem C1_deviation_tolerance_band_witness :
    (0 : Int) ≤ 10 ∧ bater_diff_final 10 25 = 25 - 10 :=
  ⟨by decide, ((C1_deviation_tolerance_band 10 25 (by decide)).2.2 (by decide)).1 (by decide)⟩

/- ### C2: the site-3/4 schedule rule. -/

/-- A character list without digits has no digit run. -/
theorem firstDigitRun_eq_none (l : List Char) (h : l.all (fun c => !c.isDigit) = true) :
    firstDigitRun l = none := by
  induction l with
  | nil => rfl
  | cons c cs ih =>
    simp only [List.all_cons, Bool.and_eq_true, Bool.not_eq_true'] at h
    unfold firstDigitRun
    rw [if_neg (by simp [h.1])]
    exact ih h.2

/-- C2: a site whose numeric value is 3 or 4 — whether given as that integer
or as free text whose first extracted integer is 3 or 4 — resolves Entry to
07:30 and Exit to 17:30; every other site, including free text with no
integer in it, resolves to the default configured mapping. -/
theorem C2_site_schedule (fi : Option Int) (filial_tx : Option String) (evento : String)
    (hev : evento = "Entrada" ∨ evento = "Saída") :
    ((fi = some 3 ∨ fi = some 4) →
      get_horario_padrao fi evento =
        (if evento = "Entrada" then ⟨7, 30⟩ else ⟨17, 30⟩)) ∧
    (¬ (fi = some 3 ∨ fi = some 4) →
      some (get_horario_padrao fi evento) = lookupHorario HORARIOS_PADRAO evento) ∧
    (atualizar_hora_prevista filial_tx evento =
      get_horario_padrao (extrair_filial_num filial_tx) evento) ∧
    ((filial_tx.getD "").data.all (fun c => !c.isDigit) = true →
      extrair_filial_num filial_tx = none) := by
  refine ⟨?_, ?_, rfl, ?_⟩
  · intro h
    unfold get_horario_padrao
    rw [if_pos h]
  · intro h
    unfold get_horario_padrao
    rw [if_neg h]
    rcases hev with he | he <;> subst he <;> rfl
  · intro h
    rcases filial_tx with _ | s
    · rfl
    · simp only [Option.getD_some] at h
      have he : extrair_filial_num (some s) = if s = "" then none else firstIntOfString s :=
        rfl
      rw [he]
      by_cases hs : s = ""
      · rw [if_pos hs]
      · rw [if_neg hs]
        unfold firstIntOfString
        rw [firstDigitRun_eq_none s.data h]
        rfl

/-- Witness for C2 at the integer site 3 and the Entry event. -/
theorem C2_site_schedule_witness :
    ("Entrada" = "Entrada" ∨ "Entrada" = "Saída") ∧
    get_horario_padrao (some 3) "Entrada" = ⟨7, 30⟩ :=
  ⟨Or.inl rfl,
    (C2_site_schedule (some 3) (some "Sede") "Entrada" (Or.inl rfl)).1 (Or.inl rfl)⟩

/- ### C4: the duplicated site-override rules at the two call sites. -/

/-- C4 counterexample: on the stored site label "filial 3" (lowercase) with
the Entry event, the recording flow's exact-string override test resolves
the default 08:00 while the correction flow's regex extraction resolves
07:30, so the two call sites disagree. -/
theorem C4_counterexample :
    bater_hora_prevista HORARIOS_PADRAO (some "filial 3") "Entrada" = some ⟨8, 0⟩ ∧
    atualizar_hora_prevista (some "filial 3") "Entrada" = ⟨7, 30⟩ ∧
    bater_hora_prevista HORARIOS_PADRAO (some "filial 3") "Entrada" ≠
      some (atualizar_hora_prevista (some "filial 3") "Entrada") := by
  refine ⟨by decide, by decide, by decide⟩

/-- C4 amended: the two call sites agree on a site label exactly when the
label is one of the four exact strings "Filial 03", "Filial 3", "Filial 04",
"Filial 4", or when its first extracted integer is not 3 and not 4 (which
includes absent labels and labels without digits); on any other label —
one whose first integer is 3 or 4 but written differently, such as
"filial 3" or "3" — they disagree. -/
theorem C4_amended (filial : Option String) (evento : String)
    (hev : evento = "Entrada" ∨ evento = "Saída") :
    bater_hora_prevista HORARIOS_PADRAO filial evento =
        some (atualizar_hora_prevista filial evento) ↔
      (filial = some "Filial 03" ∨ filial = some "Filial 3" ∨
        filial = some "Filial 04" ∨ filial = some "Filial 4" ∨
        (extrair_filial_num filial ≠ some 3 ∧ extrair_filial_num filial ≠ some 4)) := by
  by_cases hlbl : filial = some "Filial 03" ∨ filial = some "Filial 3" ∨
      filial = some "Filial 04" ∨ filial = some "Filial 4"
  · rcases hev with he | he <;> subst he <;>
      rcases hlbl with h | h | h | h <;> subst h <;> decide
  · have hb : bater_hora_prevista HORARIOS_PADRAO filial evento =
        lookupHorario HORARIOS_PADRAO evento := by
      unfold bater_hora_prevista
      rw [if_neg hlbl]
    by_cases h34 : extrair_filial_num filial = some 3 ∨ extrair_filial_num filial = some 4
    · have ha : atualizar_hora_prevista filial evento =
          (if evento = "Entrada" then ⟨7, 30⟩ else ⟨17, 30⟩) := by
        unfold atualizar_hora_prevista get_horario_padrao
        rw [if_pos h34]
      rw [hb, ha]
      constructor
      · intro hEq
        rcases hev with he | he <;> subst he <;> exact absurd hEq (by decide)
      · intro hR
        rcases hR with h | h | h | h | ⟨h3, h4⟩
        · exact absurd (Or.inl h) hlbl
        · exact absurd (Or.inr (Or.inl h)) hlbl
        · exact absurd (Or.inr (Or.inr (Or.inl h))) hlbl
        · exact absurd (Or.inr (Or.inr (Or.inr h))) hlbl
        · rcases h34 with h | h
          · exact absurd h h3
          · exact absurd h h4
    · have ha : atualizar_hora_prevista filial evento =
          (if evento = "Entrada" then ⟨8, 0⟩ else ⟨18, 0⟩) := by
        unfold atualizar_hora_prevista get_horario_padrao
        rw [if_neg h34]
      rw [hb, ha]
      constructor
      · intro _
        exact Or.inr (Or.inr (Or.inr (Or.inr
          ⟨fun h => h34 (Or.inl h), fun h => h34 (Or.inr h)⟩)))
      · intro _
        rcases hev with he | he <;> subst he <;> decide

/-- Witness for C4 amended: the two call sites agree on the label "Matriz". -/
theorem C4_amended_witness :
    ("Entrada" = "Entrada" ∨ "Entrada" = "Saída") ∧
    bater_hora_prevista HORARIOS_PADRAO (some "Matriz") "Entrada" =
      some (atualizar_hora_prevista (some "Matriz") "Entrada") :=
  ⟨Or.inl rfl, (C4_amended (some "Matriz") "Entrada" (Or.inl rfl)).2 (by decide)⟩

/- ### C3 and C6: the recording flow under the RealDictCursor rows. -/

/-- Every recording call either hits the day-complete warning (returned
before any positional row read), or raises before returning, leaving the
state unchanged: for an existing employee the site read of services.py:168
raises KeyError, and for a missing employee the schedule lookup or the
foreign-key-violating INSERT raises. -/
theorem bater_ponto_cases (horarios : List (String × Hm)) (tol : Int) (insF : Bool)
    (db : DB) (a : Agora) (cpf nome : String) :
    (obter_proximo_evento horarios db a.data cpf = "Jornada Finalizada" ∧
      bater_ponto horarios tol insF db a cpf nome =
        (.ok "Sua jornada de hoje já foi completamente registada." "warning", db)) ∨
    (obter_proximo_evento horarios db a.data cpf ≠ "Jornada Finalizada" ∧
      (bater_ponto horarios tol insF db a cpf nome).1.isRaised = true ∧
      (bater_ponto horarios tol insF db a cpf nome).2 = db) := by
  by_cases hfin : obter_proximo_evento horarios db a.data cpf = "Jornada Finalizada"
  · refine Or.inl ⟨hfin, ?_⟩
    unfold bater_ponto
    simp only [hfin, if_true]
  · refine Or.inr ⟨hfin, ?_, ?_⟩ <;>
      · unfold bater_ponto
        simp only [if_neg hfin]
        repeat' split
        all_goals rfl

/-- C3: evaluation at the failing input.  On the concrete fresh employee
and fresh day the count is 0 and the next event is "Entrada", but the
recording call records nothing: it raises the uncaught KeyError of
services.py:168 (positional access on a RealDictCursor row) and leaves the
state unchanged, so the claimed Entry/Exit/warning sequence never starts. -/
theorem C3_fresh_day_raises :
    countHoje dbAna "111" "2025-01-06" = 0 ∧
    obter_proximo_evento HORARIOS_PADRAO dbAna "2025-01-06" "111" = "Entrada" ∧
    bater_ponto HORARIOS_PADRAO 10 false dbAna agora0805 "111" "Ana" =
      (Outcome.raised "KeyError: 0", dbAna) := by
  refine ⟨by decide, by decide, by decide⟩

/-- C6: the branch guarded by the nonzero raw deviation in the
confirmation-message logic (services.py:225-226) is unreachable: for no
state, tolerance or clock reading does a recording call return a
confirmation message at all — every call either returns the fixed
day-complete warning or raises at services.py:168 or at the INSERT, before
the message logic runs — so in particular the within-tolerance status is
never produced.  (The tolerance-band algebra alone would reach the branch
whenever 0 < |raw| ≤ tolerance; the unreachability comes from the earlier
uncaught exceptions, not from the deviation computation.) -/
theorem C6_branch_unreachable (horarios : List (String × Hm)) (tol : Int)
    (insF : Bool) (db : DB) (a : Agora) (cpf nome : String) :
    (bater_ponto horarios tol insF db a cpf nome).1 =
        Outcome.ok "Sua jornada de hoje já foi completamente registada." "warning" ∨
    (bater_ponto horarios tol insF db a cpf nome).1.isRaised = true := by
  rcases bater_ponto_cases horarios tol insF db a cpf nome with ⟨_, heq⟩ | ⟨_, hr, _⟩
  · left
    rw [heq]
  · right
    exact hr

/- ### Shapes of the correction flow's committed state. -/

/-- A raised call has no severity. -/
theorem Outcome.sev_eq_none_of_isRaised (o : Outcome) (h : o.isRaised = true) :
    o.sev = none := by
  cases o with
  | ok m s => exact Bool.noConfusion h
  | raised e => rfl

/-- Every run of the correction flow either commits (severity "success")
one of the four possible write shapes — no write, annotation only, time
only, or annotation then time — or leaves the durable state untouched. -/
theorem atualizar_shapes (tol : Int) (fail : DbFail) (db : DB) (idr : String)
    (nh no : Option String) :
    ((atualizar_registro tol fail db idr nh no).1.sev = some "success" ∧
      ((atualizar_registro tol fail db idr nh no).2 = db ∨
        (∃ obs, no = some obs ∧
          (atualizar_registro tol fail db idr nh no).2 = upd_obs db idr obs) ∨
        (∃ hstr d, nh = some hstr ∧
          (atualizar_registro tol fail db idr nh no).2 = upd_hora db idr hstr d) ∨
        (∃ obs hstr d, no = some obs ∧ nh = some hstr ∧
          (atualizar_registro tol fail db idr nh no).2 =
            upd_hora (upd_obs db idr obs) idr hstr d))) ∨
    (atualizar_registro tol fail db idr nh no).2 = db := by
  unfold atualizar_registro atualizar_finalize
  rcases no with _ | obs
  · simp only [atualizar_obs_step]
    repeat' split
    all_goals
      first
        | exact Or.inr rfl
        | exact Or.inl ⟨rfl, Or.inl rfl⟩
        | exact Or.inl ⟨rfl, Or.inr (Or.inr (Or.inl ⟨_, _, rfl, rfl⟩))⟩
  · simp only [atualizar_obs_step]
    repeat' split
    all_goals
      first
        | exact Or.inr rfl
        | exact Or.inl ⟨rfl, Or.inr (Or.inl ⟨_, rfl, rfl⟩)⟩
        | exact Or.inl ⟨rfl, Or.inr (Or.inr (Or.inr ⟨_, _, _, rfl, rfl, rfl⟩))⟩
        | simp_all [Outcome.sev, upd_obs]

/-- C5: the punch correction is all-or-nothing — every call that ends in an
error result (punch not found, malformed time, injected store failure), and
every call that escapes with an uncaught exception, leaves the durable
state exactly as it was; in particular an annotation update executed before
a later failure does not commit. -/
theorem C5_correction_all_or_nothing (tol : Int) (fail : DbFail) (db : DB)
    (idr : String) (nh no : Option String) :
    ((atualizar_registro tol fail db idr nh no).1.sev = some "error" →
      (atualizar_registro tol fail db idr nh no).2 = db) ∧
    ((atualizar_registro tol fail db idr nh no).1.isRaised = true →
      (atualizar_registro tol fail db idr nh no).2 = db) := by
  constructor
  · intro h
    rcases atualizar_shapes tol fail db idr nh no with ⟨hsev, _⟩ | hu
    · exact absurd (hsev.symm.trans h) (by decide)
    · exact hu
  · intro h
    rcases atualizar_shapes tol fail db idr nh no with ⟨hsev, _⟩ | hu
    · rw [Outcome.sev_eq_none_of_isRaised _ h] at hsev
      exact absurd hsev (by decide)
    · exact hu

/-- A concrete punch row as the recording flow would have written it. -/
def regSaida : Registro :=
  ⟨"111-2025-01-06T18:25:00", "111", "Ana", "2025-01-06", "18:25:00", "Saída", 15,
    some ""⟩

/-- A concrete state holding one employee and one punch. -/
def dbAnaReg : DB := ⟨[], [funcAna], [regSaida]⟩

/-- Witness for C5: an annotation update followed by a malformed time ends
in an error and leaves the concrete state untouched. -/
theorem C5_correction_all_or_nothing_witness :
    (atualizar_registro 10 noFail dbAnaReg "111-2025-01-06T18:25:00" (some "bad")
        (some "note")).1.sev = some "error" ∧
    (atualizar_registro 10 noFail dbAnaReg "111-2025-01-06T18:25:00" (some "bad")
        (some "note")).2 = dbAnaReg :=
  ⟨by decide,
    (C5_correction_all_or_nothing 10 noFail dbAnaReg "111-2025-01-06T18:25:00"
      (some "bad") (some "note")).1 (by decide)⟩

/- ### C9: frame property of a successful correction. -/

/-- One punch row of `new` against the same-position row of `old`: the id,
employee, stored name, date and event kind are unchanged, and a row whose id
is not the target is entirely unchanged. -/
def rowFramed (idr : String) (old new : Registro) : Prop :=
  new.id = old.id ∧ new.cpf_funcionario = old.cpf_funcionario ∧
  new.nome = old.nome ∧ new.data = old.data ∧ new.descricao = old.descricao ∧
  (old.id ≠ idr → new = old)

/-- Between `old` and `new`, the company and employee tables are unchanged
and the punch lists correspond position by position through `rowFramed`
(hence same length and order). -/
def framePreserved (old new : DB) (idr : String) : Prop :=
  new.empresas = old.empresas ∧
  new.funcionarios = old.funcionarios ∧
  List.Forall₂ (rowFramed idr) old.registros new.registros

/-- The frame relation holds reflexively. -/
theorem framePreserved_refl (db : DB) (idr : String) : framePreserved db db idr := by
  refine ⟨rfl, rfl, List.forall₂_same.2 ?_⟩
  intro r _
  exact ⟨rfl, rfl, rfl, rfl, rfl, fun _ => rfl⟩

/-- A per-id map that keeps the identifying fields preserves the frame. -/
theorem framePreserved_map (db : DB) (idr : String) (f : Registro → Registro)
    (hid : ∀ r, (f r).id = r.id)
    (hcpf : ∀ r, (f r).cpf_funcionario = r.cpf_funcionario)
    (hnome : ∀ r, (f r).nome = r.nome) (hdata : ∀ r, (f r).data = r.data)
    (hdesc : ∀ r, (f r).descricao = r.descricao) :
    framePreserved db
      { db with registros := db.registros.map (fun r => if r.id = idr then f r else r) }
      idr := by
  refine ⟨rfl, rfl, ?_⟩
  rw [List.forall₂_map_right_iff]
  refine List.forall₂_same.2 ?_
  intro r _
  by_cases hc : r.id = idr
  · simp only [if_pos hc]
    exact ⟨hid r, hcpf r, hnome r, hdata r, hdesc r, fun hne => absurd hc hne⟩
  · simp only [if_neg hc]
    exact ⟨rfl, rfl, rfl, rfl, rfl, fun _ => rfl⟩

/-- Pointwise transitivity of `rowFramed` lists. -/
theorem forall₂_rowFramed_trans (idr : String) :
    ∀ {a b c : List Registro}, List.Forall₂ (rowFramed idr) a b →
      List.Forall₂ (rowFramed idr) b c → List.Forall₂ (rowFramed idr) a c := by
  intro a b c hab
  induction hab generalizing c with
  | nil =>
    intro hbc
    cases hbc
    exact List.Forall₂.nil
  | @cons x y l1 l2 hxy _ ih =>
    intro hbc
    cases hbc with
    | cons hyz htail =>
      refine List.Forall₂.cons ?_ (ih htail)
      obtain ⟨i1a, i2a, i3a, i4a, i5a, i6a⟩ := hxy
      obtain ⟨i1b, i2b, i3b, i4b, i5b, i6b⟩ := hyz
      refine ⟨i1b.trans i1a, i2b.trans i2a, i3b.trans i3a, i4b.trans i4a,
        i5b.trans i5a, ?_⟩
      intro hne
      have hyne : y.id ≠ idr := by
        rw [i1a]
        exact hne
      rw [i6b hyne, i6a hne]

/-- The frame relation composes. -/
theorem framePreserved_trans (a b c : DB) (idr : String)
    (hab : framePreserved a b idr) (hbc : framePreserved b c idr) :
    framePreserved a c idr :=
  ⟨hbc.1.trans hab.1, hbc.2.1.trans hab.2.1,
    forall₂_rowFramed_trans idr hab.2.2 hbc.2.2⟩

/-- The annotation UPDATE preserves the frame. -/
theorem framePreserved_upd_obs (db : DB) (idr obs : String) :
    framePreserved db (upd_obs db idr obs) idr :=
  framePreserved_map db idr (fun r => { r with observacao := some obs })
    (fun _ => rfl) (fun _ => rfl) (fun _ => rfl) (fun _ => rfl) (fun _ => rfl)

/-- The time/deviation UPDATE preserves the frame. -/
theorem framePreserved_upd_hora (db : DB) (idr hora : String) (diff : Int) :
    framePreserved db (upd_hora db idr hora diff) idr :=
  framePreserved_map db idr (fun r => { r with hora := hora, diferenca_min := diff })
    (fun _ => rfl) (fun _ => rfl) (fun _ => rfl) (fun _ => rfl) (fun _ => rfl)

/-- C9: a successful punch correction may change only the targeted punch's
time-of-day, deviation and annotation — every punch keeps its id, employee
reference, stored name, calendar date and event kind, no other punch row
changes at all, and the employee and company tables are untouched. -/
theorem C9_correction_frame (tol : Int) (fail : DbFail) (db : DB) (idr : String)
    (nh no : Option String)
    (_hs : (atualizar_registro tol fail db idr nh no).1.sev = some "success") :
    framePreserved db (atualizar_registro tol fail db idr nh no).2 idr := by
  rcases atualizar_shapes tol fail db idr nh no with ⟨_, hshape⟩ | hu
  · rcases hshape with h | ⟨obs, _, h⟩ | ⟨hstr, d, _, h⟩ | ⟨obs, hstr, d, _, _, h⟩
    · rw [h]
      exact framePreserved_refl db idr
    · rw [h]
      exact framePreserved_upd_obs db idr obs
    · rw [h]
      exact framePreserved_upd_hora db idr hstr d
    · rw [h]
      exact framePreserved_trans _ _ _ _ (framePreserved_upd_obs db idr obs)
        (framePreserved_upd_hora (upd_obs db idr obs) idr hstr d)
  · rw [hu]
    exact framePreserved_refl db idr

/-- Witness for C9 on a concrete successful correction. -/
theorem C9_correction_frame_witness :
    (atualizar_registro 10 noFail dbAnaReg "111-2025-01-06T18:25:00" (some "18:05:00")
        none).1.sev = some "success" ∧
    (atualizar_registro 10 noFail dbAnaReg "111-2025-01-06T18:25:00" (some "18:05:00")
        none).2.funcionarios = dbAnaReg.funcionarios :=
  ⟨by decide,
    (C9_correction_frame 10 noFail dbAnaReg "111-2025-01-06T18:25:00" (some "18:05:00")
      none (by decide)).2.1⟩

/- ### C10: the correction's deviation ignores the seconds of the new time. -/

/-- The stored deviation of the punch with the given id. -/
def regDiff (db : DB) (idr : String) : Option Int :=
  (db.registros.find? (fun r => r.id = idr)).map Registro.diferenca_min

/-- The stored time-of-day string of the punch with the given id. -/
def regHora (db : DB) (idr : String) : Option String :=
  (db.registros.find? (fun r => r.id = idr)).map Registro.hora

/-- A punch found under the target id carries that id. -/
theorem find?_id_some (l : List Registro) (idr : String) (r0 : Registro)
    (h : l.find? (fun r => r.id = idr) = some r0) : r0.id = idr := by
  induction l with
  | nil => exact Option.noConfusion h
  | cons r rs ih =>
    rw [List.find?_cons] at h
    by_cases hr : r.id = idr
    · simp only [hr, decide_True] at h
      have hrr : r = r0 := by
        injection h
      rw [← hrr]
      exact hr
    · simp only [hr, decide_False] at h
      exact ih h

/-- The time UPDATE rewrites the first punch found under the target id. -/
theorem find?_upd_hora (l : List Registro) (idr t : String) (d : Int) :
    (l.map (fun r =>
        if r.id = idr then { r with hora := t, diferenca_min := d } else r)).find?
        (fun r => r.id = idr) =
      (l.find? (fun r => r.id = idr)).map (fun r =>
        if r.id = idr then { r with hora := t, diferenca_min := d } else r) := by
  induction l with
  | nil => rfl
  | cons r rs ih =>
    simp only [List.map_cons, List.find?_cons]
    by_cases hr : r.id = idr
    · simp [hr]
    · simp [hr, ih]

/-- On the path where the record exists, the time parses, the employee join
succeeds, the stored date parses and the UPDATE touches a row, the
time-only correction commits the time UPDATE. -/
theorem atualizar_time_only (tol : Int) (db : DB) (idr hstr : String) (obj : Hms)
    (hfind : (db.registros.find? (fun r => r.id = idr)).isNone = false)
    (hp : parse_hms hstr = some obj)
    (reg : Registro) (ftx : Option String)
    (hsel : selectJoin db idr = some (reg, ftx))
    (hdate : dateOk reg.data = true)
    (hrc : ¬ rowcount_id db idr = 0) :
    atualizar_registro tol noFail db idr (some hstr) none =
      (.ok "Registro atualizado com sucesso." "success",
        upd_hora db idr hstr
          (atualizar_diff_final tol (atualizar_diff_bruta ftx reg.descricao obj))) := by
  unfold atualizar_registro atualizar_finalize
  simp only [atualizar_obs_step, hfind, Bool.false_eq_true, if_false, hp, hsel, hdate,
    if_true, noFail, Nat.zero_add]
  rw [if_neg hrc]

/-- Raw deviation of the correction flow depends only on the hour and
minute of the parsed time. -/
theorem atualizar_diff_bruta_seconds_free (ftx : Option String) (descricao : String)
    (o1 o2 : Hms) (hh : o1.hour = o2.hour) (hm : o1.minute = o2.minute) :
    atualizar_diff_bruta ftx descricao o1 = atualizar_diff_bruta ftx descricao o2 := by
  unfold atualizar_diff_bruta
  rw [hh, hm]

/-- C10: the recomputed deviation is independent of the seconds component of
the supplied new HH:MM:SS time — two well-formed times with equal hours and
minutes store the same deviation, while each run persists its own full
time string. -/
theorem C10_seconds_independent (tol : Int) (db : DB) (idr t1 t2 : String)
    (o1 o2 : Hms)
    (hp1 : parse_hms t1 = some o1) (hp2 : parse_hms t2 = some o2)
    (hh : o1.hour = o2.hour) (hm : o1.minute = o2.minute)
    (hs : (atualizar_registro tol noFail db idr (some t1) none).1.sev =
      some "success") :
    (atualizar_registro tol noFail db idr (some t2) none).1.sev = some "success" ∧
    regDiff (atualizar_registro tol noFail db idr (some t1) none).2 idr =
      regDiff (atualizar_registro tol noFail db idr (some t2) none).2 idr ∧
    regHora (atualizar_registro tol noFail db idr (some t1) none).2 idr = some t1 ∧
    regHora (atualizar_registro tol noFail db idr (some t2) none).2 idr = some t2 := by
  by_cases hfind : (db.registros.find? (fun r => r.id = idr)).isNone
  · exfalso
    have h1 : (atualizar_registro tol noFail db idr (some t1) none).1 =
        .ok "Registro não encontrado." "error" := by
      unfold atualizar_registro
      rw [if_pos hfind]
    rw [h1] at hs
    exact absurd hs (by decide)
  · have hfind' : (db.registros.find? (fun r => r.id = idr)).isNone = false :=
      Bool.not_eq_true _ ▸ eq_false_of_ne_true hfind
    rcases hsel : selectJoin db idr with _ | pair
    · exfalso
      have h1 : atualizar_registro tol noFail db idr (some t1) none =
          (.ok "Nenhuma alteração foi realizada." "warning", db) := by
        unfold atualizar_registro atualizar_finalize
        simp only [atualizar_obs_step, hfind', Bool.false_eq_true, if_false, hp1, hsel,
          if_true]
      rw [h1] at hs
      have hs2 : (Outcome.ok "Nenhuma alteração foi realizada." "warning").sev =
          some "success" := hs
      exact absurd hs2 (by decide)
    · obtain ⟨reg, ftx⟩ := pair
      by_cases hdate : dateOk reg.data
      · by_cases hrc : rowcount_id db idr = 0
        · exfalso
          have h1 : atualizar_registro tol noFail db idr (some t1) none =
              (.ok "Nenhuma alteração foi realizada." "warning", db) := by
            unfold atualizar_registro atualizar_finalize
            simp only [atualizar_obs_step, hfind', Bool.false_eq_true, if_false, hp1,
              hsel, hdate, if_true, noFail, Nat.zero_add, hrc]
          rw [h1] at hs
          have hs2 : (Outcome.ok "Nenhuma alteração foi realizada." "warning").sev =
              some "success" := hs
          exact absurd hs2 (by decide)
        · have e1 := atualizar_time_only tol db idr t1 o1 hfind' hp1 reg ftx hsel hdate hrc
          have e2 := atualizar_time_only tol db idr t2 o2 hfind' hp2 reg ftx hsel hdate hrc
          have hdb := atualizar_diff_bruta_seconds_free ftx reg.descricao o1 o2 hh hm
          rcases hfr : db.registros.find? (fun r => r.id = idr) with _ | r0
          · rw [hfr] at hfind'
            exact absurd hfind' (by decide)
          · have hr0id : r0.id = idr := find?_id_some db.registros idr r0 hfr
            have hregd : ∀ t : String,
                regDiff (upd_hora db idr t
                    (atualizar_diff_final tol
                      (atualizar_diff_bruta ftx reg.descricao o2))) idr =
                  some (atualizar_diff_final tol
                    (atualizar_diff_bruta ftx reg.descricao o2)) := by
              intro t
              unfold regDiff upd_hora
              rw [find?_upd_hora, hfr]
              simp [hr0id]
            have hregh : ∀ (t : String) (d : Int),
                regHora (upd_hora db idr t d) idr = some t := by
              intro t d
              unfold regHora upd_hora
              rw [find?_upd_hora, hfr]
              simp [hr0id]
            refine ⟨by rw [e2]; rfl, ?_, ?_, ?_⟩
            · rw [e1, e2, hdb]
              rw [hregd t1, hregd t2]
            · rw [e1]
              exact hregh t1 _
            · rw [e2]
              exact hregh t2 _
      · exfalso
        have h1 : (atualizar_registro tol noFail db idr (some t1) none).1 =
            .raised "ValueError: strptime" := by
          unfold atualizar_registro
          simp only [atualizar_obs_step, hfind', Bool.false_eq_true, if_false, hp1,
            hsel, hdate, Bool.false_eq_true, if_false]
        rw [h1] at hs
        exact absurd hs (by decide)

/-- Witness for C10: correcting the concrete punch to 18:05:10 and 18:05:59
stores the same deviation. -/
theorem C10_seconds_independent_witness :
    (atualizar_registro 10 noFail dbAnaReg "111-2025-01-06T18:25:00"
        (some "18:05:10") none).1.sev = some "success" ∧
    regDiff (atualizar_registro 10 noFail dbAnaReg "111-2025-01-06T18:25:00"
        (some "18:05:10") none).2 "111-2025-01-06T18:25:00" =
      regDiff (atualizar_registro 10 noFail dbAnaReg "111-2025-01-06T18:25:00"
        (some "18:05:59") none).2 "111-2025-01-06T18:25:00" :=
  ⟨by decide,
    (C10_seconds_independent 10 dbAnaReg "111-2025-01-06T18:25:00" "18:05:10" "18:05:59"
      ⟨18, 5, 10⟩ ⟨18, 5, 59⟩ (by decide) (by decide) rfl rfl (by decide)).2.1⟩

/- ### C7: error conversion at the operation boundaries. -/

/-- The punch the correction flow's join returns is a stored punch row. -/
theorem selectJoin_mem (db : DB) (idr : String) (reg : Registro) (ftx : Option String)
    (h : selectJoin db idr = some (reg, ftx)) : reg ∈ db.registros := by
  unfold selectJoin at h
  rcases hf : db.registros.find? (fun r => r.id = idr) with _ | r1
  · rw [hf] at h
    exact Option.noConfusion h
  · rw [hf] at h
    simp only [Option.bind] at h
    rcases hg : db.funcionarios.find? (fun f => f.cpf = r1.cpf_funcionario) with _ | f1
    · rw [hg] at h
      exact Option.noConfusion h
    · rw [hg] at h
      have h2 : (r1, f1.filial) = (reg, ftx) := by
        injection h
      have h3 : r1 = reg := congrArg Prod.fst h2
      rw [← h3]
      exact List.mem_of_find?_eq_some hf

/-- The annotation UPDATE keeps every stored date parseable. -/
theorem upd_obs_data_all (db : DB) (idr obs : String)
    (hdate : ∀ r ∈ db.registros, dateOk r.data = true) :
    ∀ r ∈ (upd_obs db idr obs).registros, dateOk r.data = true := by
  intro r hr
  unfold upd_obs at hr
  rcases List.mem_map.1 hr with ⟨r0, hr0, heq⟩
  by_cases hc : r0.id = idr
  · rw [← heq, if_pos hc]
    exact hdate r0 hr0
  · rw [← heq, if_neg hc]
    exact hdate r0 hr0

/-- When every stored date parses, the correction flow never lets an
exception escape: the only uncaught raise is the date `ValueError`. -/
theorem atualizar_never_raises (tol : Int) (fail : DbFail) (db : DB) (idr : String)
    (nh no : Option String)
    (hdate : ∀ r ∈ db.registros, dateOk r.data = true) :
    (atualizar_registro tol fail db idr nh no).1.isRaised = false := by
  unfold atualizar_registro atualizar_finalize
  rcases no with _ | obs
  · simp only [atualizar_obs_step]
    repeat' split
    all_goals
      first
        | rfl
        | (exfalso
           rename_i reg ftx hsel hnd
           exact hnd (hdate reg (selectJoin_mem db idr reg ftx hsel)))
  · by_cases hob : fail.obsUpdate = true
    · have hred : atualizar_obs_step fail db idr (some obs) = none := by
        have h0 : atualizar_obs_step fail db idr (some obs) =
            if fail.obsUpdate = true then none
            else some (upd_obs db idr obs, rowcount_id db idr) := rfl
        rw [h0, if_pos hob]
      simp only [hred]
      repeat' split
      all_goals rfl
    · have hred : atualizar_obs_step fail db idr (some obs) =
          some (upd_obs db idr obs, rowcount_id db idr) := by
        have h0 : atualizar_obs_step fail db idr (some obs) =
            if fail.obsUpdate = true then none
            else some (upd_obs db idr obs, rowcount_id db idr) := rfl
        rw [h0, if_neg hob]
      simp only [hred]
      repeat' split
      all_goals
        first
          | rfl
          | (exfalso
             rename_i reg ftx hsel hnd
             exact hnd (upd_obs_data_all db idr obs hdate reg
               (selectJoin_mem (upd_obs db idr obs) idr reg ftx hsel)))

/-- C7 counterexample: with no failure injection at all, the recording call
for the concrete existing employee raises the uncaught KeyError of
services.py:168, and the employee-creation call for a fresh cpf raises the
uncaught KeyError of services.py:110-114 — core operations do propagate
unhandled exceptions to the caller. -/
theorem C7_counterexample :
    (bater_ponto HORARIOS_PADRAO 10 false dbAna agora0805 "111" "Ana").1 =
      Outcome.raised "KeyError: 0" ∧
    (bater_ponto HORARIOS_PADRAO 10 false dbAna agora0805 "111" "Ana").1.isRaised =
      true ∧
    (adicionar_funcionario dbAna "c2" "Bob" "ACME" "9" "222" "t" "tp"
        "Matriz").1.isRaised = true := by
  refine ⟨by decide, by decide, by decide⟩

/-- C7 amended: only the punch correction honors the contract — it returns
a (message, severity) pair and converts store failures at its boundary.
The recording flow raises an uncaught exception on every call that passes
the day-complete check, and employee creation raises an uncaught KeyError
on every validated fresh-cpf call. -/
theorem C7_amended (tol : Int) (fail : DbFail) (db : DB) (idr : String)
    (nh no : Option String)
    (codigo nome nome_empresa cnpj cpf cod_tipo tipo filial : String)
    (horarios : List (String × Hm)) (insF : Bool) (a : Agora) (rcpf rnome : String)
    (hdate : ∀ r ∈ db.registros, dateOk r.data = true) :
    (atualizar_registro tol fail db idr nh no).1.isRaised = false ∧
    ((truthy codigo && truthy nome && truthy nome_empresa && truthy cpf) = true →
      (db.funcionarios.find? (fun f => f.cpf = cpf)).isSome = false →
      (adicionar_funcionario db codigo nome nome_empresa cnpj cpf cod_tipo tipo
          filial).1.isRaised = true) ∧
    (obter_proximo_evento horarios db a.data rcpf ≠ "Jornada Finalizada" →
      (bater_ponto horarios tol insF db a rcpf rnome).1.isRaised = true) := by
  refine ⟨atualizar_never_raises tol fail db idr nh no hdate, ?_, ?_⟩
  · intro hv hdup
    unfold adicionar_funcionario
    rw [if_neg (not_not_intro hv), if_neg (by rw [hdup]; decide)]
    rfl
  · intro hob
    rcases bater_ponto_cases horarios tol insF db a rcpf rnome with
      ⟨hfin, _⟩ | ⟨_, hr, _⟩
    · exact absurd hfin hob
    · exact hr

/-- Witness for C7 amended on concrete inputs. -/
theorem C7_amended_witness :
    (atualizar_registro 10 noFail dbAna "nope" none none).1.isRaised = false ∧
    (adicionar_funcionario dbAna "c2" "Bob" "ACME" "9" "222" "t" "tp"
        "Matriz").1.isRaised = true ∧
    (bater_ponto HORARIOS_PADRAO 10 false dbAna agora0805 "111" "Ana").1.isRaised =
      true :=
  ⟨(C7_amended 10 noFail dbAna "nope" none none "c2" "Bob" "ACME" "9" "222" "t" "tp"
      "Matriz" HORARIOS_PADRAO false agora0805 "111" "Ana" (by decide)).1,
    (C7_amended 10 noFail dbAna "nope" none none "c2" "Bob" "ACME" "9" "222" "t" "tp"
      "Matriz" HORARIOS_PADRAO false agora0805 "111" "Ana" (by decide)).2.1 (by decide)
      (by decide),
    (C7_amended 10 noFail dbAna "nope" none none "c2" "Bob" "ACME" "9" "222" "t" "tp"
      "Matriz" HORARIOS_PADRAO false agora0805 "111" "Ana" (by decide)).2.2
      (by decide)⟩

/- ### C8: bulk-import deduplication. -/

/-- Loop invariant of the bulk import: the known-cpf list is exactly the
persisted cpfs followed by the queued cpfs in queue order, the queued cpfs
are pairwise distinct, and no queued cpf is persisted. -/
def importInv (db : DB) (st : ImportState) : Prop :=
  st.cpfs = db.funcionarios.map Funcionario.cpf ++ st.novos.map Funcionario.cpf ∧
  (st.novos.map Funcionario.cpf).Nodup ∧
  ∀ c ∈ st.novos.map Funcionario.cpf, c ∉ db.funcionarios.map Funcionario.cpf

/-- The invariant holds on loop entry. -/
theorem importInv_init (db : DB) : importInv db (importar_init db) := by
  refine ⟨by simp [importar_init], by simp [importar_init], by simp [importar_init]⟩

/-- One loop iteration preserves the invariant. -/
theorem importInv_row (db : DB) (st : ImportState) (idx : Nat) (r : Linha)
    (h : importInv db st) : importInv db (importar_row st idx r) := by
  obtain ⟨h1, h2, h3⟩ := h
  simp only [importar_row]
  by_cases hc : st.cpfs.contains (trimStr r.cpf) = true
  · rw [if_pos hc]
    exact ⟨h1, h2, h3⟩
  · rw [if_neg hc]
    have hmem : trimStr r.cpf ∉ st.cpfs := fun hm => hc (List.elem_eq_true_of_mem hm)
    rw [h1] at hmem
    have hnp : trimStr r.cpf ∉ db.funcionarios.map Funcionario.cpf := fun hm =>
      hmem (List.mem_append.2 (Or.inl hm))
    have hnn : trimStr r.cpf ∉ st.novos.map Funcionario.cpf := fun hm =>
      hmem (List.mem_append.2 (Or.inr hm))
    split
    · exact ⟨h1, h2, h3⟩
    · split
      · split
        · exact ⟨h1, h2, h3⟩
        · refine ⟨?_, ?_, ?_⟩
          · simp only [List.map_append, List.map_cons, List.map_nil]
            rw [h1, List.append_assoc]
          · simp only [List.map_append, List.map_cons, List.map_nil]
            simp [List.nodup_append, h2, hnn]
          · intro c hcm
            simp only [List.map_append, List.map_cons, List.map_nil] at hcm
            rcases List.mem_append.1 hcm with hold | hnew
            · exact h3 c hold
            · rw [List.mem_singleton.1 hnew]
              exact hnp
      · exact ⟨h1, h2, h3⟩

/-- The invariant holds after processing any row list. -/
theorem importInv_loop (db : DB) :
    ∀ (rows : List Linha) (st : ImportState) (idx : Nat),
      importInv db st → importInv db (importar_loop st idx rows) := by
  intro rows
  induction rows with
  | nil =>
    intro st idx h
    exact h
  | cons r rs ih =>
    intro st idx h
    exact ih _ _ (importInv_row db st idx r h)

/-- Processing an appended row runs one more iteration at the next index. -/
theorem importar_loop_append (l : List Linha) :
    ∀ (st : ImportState) (idx : Nat) (r : Linha),
      importar_loop st idx (l ++ [r]) =
        importar_row (importar_loop st idx l) (idx + l.length) r := by
  induction l with
  | nil =>
    intro st idx r
    rfl
  | cons x xs ih =>
    intro st idx r
    simp only [List.cons_append, importar_loop, List.length_cons, List.append_eq]
    rw [ih]
    congr 1
    omega

/-- A row whose (trimmed) cpf is already known is only tallied as ignored. -/
theorem importar_row_dup (st : ImportState) (idx : Nat) (r : Linha)
    (hc : st.cpfs.contains (trimStr r.cpf) = true) :
    importar_row st idx r = { st with ignorados := st.ignorados + 1 } := by
  simp only [importar_row]
  rw [if_pos hc]

/-- C8: a bulk-import row whose employee id already exists among the
persisted employees or among rows queued earlier in the same batch is
counted only in the ignored tally — queue, success count and error list are
untouched — and the queued rows reaching the final batched insert carry
pairwise-distinct ids, none of them persisted. -/
theorem C8_bulk_import_dedup (db : DB) (rows : List Linha) (r : Linha)
    (hdup : trimStr r.cpf ∈ db.funcionarios.map Funcionario.cpf ∨
      trimStr r.cpf ∈ (importar_proc db rows).novos.map Funcionario.cpf) :
    (importar_proc db (rows ++ [r])).ignorados =
      (importar_proc db rows).ignorados + 1 ∧
    (importar_proc db (rows ++ [r])).novos = (importar_proc db rows).novos ∧
    (importar_proc db (rows ++ [r])).erros = (importar_proc db rows).erros ∧
    ((importar_proc db rows).novos.map Funcionario.cpf).Nodup ∧
    (∀ c ∈ (importar_proc db rows).novos.map Funcionario.cpf,
      c ∉ db.funcionarios.map Funcionario.cpf) ∧
    (importar_funcionarios_em_massa false db (rows ++ [r])).1.1 =
      (importar_funcionarios_em_massa false db rows).1.1 ∧
    (importar_funcionarios_em_massa false db (rows ++ [r])).1.2.1 =
      (importar_funcionarios_em_massa false db rows).1.2.1 + 1 ∧
    (importar_funcionarios_em_massa false db (rows ++ [r])).1.2.2 =
      (importar_funcionarios_em_massa false db rows).1.2.2 := by
  have hinv : importInv db (importar_proc db rows) :=
    importInv_loop db rows (importar_init db) 0 (importInv_init db)
  obtain ⟨h1, h2, h3⟩ := hinv
  have hc : (importar_proc db rows).cpfs.contains (trimStr r.cpf) = true := by
    refine List.elem_eq_true_of_mem ?_
    rw [h1]
    rcases hdup with hp | hq
    · exact List.mem_append.2 (Or.inl hp)
    · exact List.mem_append.2 (Or.inr hq)
  have hstep : importar_proc db (rows ++ [r]) =
      { importar_proc db rows with
        ignorados := (importar_proc db rows).ignorados + 1 } := by
    unfold importar_proc
    rw [importar_loop_append]
    exact importar_row_dup _ _ r hc
  refine ⟨by rw [hstep], by rw [hstep], by rw [hstep], h2, h3, ?_, ?_, ?_⟩ <;>
    · unfold importar_funcionarios_em_massa
      rw [hstep]
      by_cases hemp : (importar_proc db rows).novos.isEmpty = true <;>
        simp [hemp]

/-- Witness for C8: a batch re-listing an already persisted cpf ignores the
duplicate row. -/
theorem C8_bulk_import_dedup_witness :
    trimStr "111" ∈ dbAna.funcionarios.map Funcionario.cpf ∧
    (importar_proc dbAna [⟨"f", "ACME", "9", "a", "b", "c7", "Bob", "111"⟩]).ignorados =
      (importar_proc dbAna ([] : List Linha)).ignorados + 1 :=
  ⟨by decide,
    by
      have h := C8_bulk_import_dedup dbAna []
        ⟨"f", "ACME", "9", "a", "b", "c7", "Bob", "111"⟩ (Or.inl (by decide))
      exact h.1⟩

end Services
